import Mathlib

/-!
Shallow embedding of the authorization / status-transition slice of the
waiedu task-management backend (FastAPI + SQLAlchemy), covering the
routers `auth.py`, `projects.py`, `tasks.py`,
`admin_requests/forgot_password.py` and the helpers in `utils/jwt.py`.

Modelling conventions:
* the relational store is a `DB` record of lists of rows; a request
  handler is a function `... → Outcome α × DB` returning the response
  envelope outcome and the post-commit store (on an error path the code
  returns before `commit()`, so the store is returned unchanged);
* enum-typed columns are carried as `String` values, exactly as the
  handlers manipulate them (the routers compare and assign raw strings);
* timestamps are `Nat` (seconds); the several `datetime.now()` calls
  inside one handler are merged into a single `now` parameter;
* bcrypt hashing / verification are abstract function parameters
  (`hash : String → String`, `verify : String → String → Bool`);
* a JWT is modelled by its (decodable, hence injective) payload record
  `TokenPayload` rather than its encoded string; `jose.jwt.decode`
  rejects a token exactly when `exp < now`;
* pydantic request models with `Optional` fields dumped with
  `exclude_unset=True` are records of `Option` fields (`none` = unset);
* mutating a row object found by a query and committing is modelled by
  rewriting the first row of the table that matches the query predicate
  (primary-key lookups touch exactly that row).
-/

/-- Response-envelope error: `{code, details}` plus the top-level `message`. -/
structure ApiError where
  code : String
  details : String
  message : String
deriving Repr, DecidableEq

/-- Outcome of a handler: `ok data message`, an envelope error (HTTP 200 with
`success=false`), or the admin-gate transport-level 403. -/
inductive Outcome (α : Type) where
  | ok (data : α) (message : String)
  | err (e : ApiError)
  | http403 (detail : String)
deriving Repr, DecidableEq

/-- Model of `models/enums.py TaskStatusEnum` values. -/
def task_status_values : List String := ["completed", "cancelled", "todo", "in_progress"]

/-- Model of `models/enums.py ProjectStatusEnum` values. -/
def project_status_values : List String :=
  ["cancelled", "completed", "rejected", "on_hold", "pending_approval", "in_progress"]

/-- Model of `models/enums.py PriorityEnum` values. -/
def priority_values : List String := ["very_low", "low", "medium", "high", "critical"]

/-- Decoded JWT payload (`utils/jwt.py create_access_token`): claims
`sub` (user id), `exp`, `iat`, `username`, `email`. -/
structure TokenPayload where
  sub : Nat
  exp : Nat
  iat : Nat
  username : String
  email : Option String
deriving Repr, DecidableEq

/-- Model of `models/core.py User` row. -/
structure UserRow where
  id : Nat
  username : String
  password : String
  email : Option String
  full_name : Option String
  role_id : Option Nat
  status : String
  last_login : Option Nat
  avatar : Option String
deriving Repr, DecidableEq

/-- Model of `models/core.py Role` row. -/
structure RoleRow where
  id : Nat
  name : String
deriving Repr, DecidableEq

/-- Model of `models/core.py UserToken` row. -/
structure UserTokenRow where
  id : Nat
  user_id : Nat
  token : TokenPayload
  created_at : Nat
  expires_at : Nat
deriving Repr, DecidableEq

/-- Model of `models/project.py Project` row. -/
structure ProjectRow where
  id : Nat
  name : String
  description : Option String
  status : String
  start_date : Nat
  end_date : Nat
  manager_id : Option Nat
  budget : Option Int
  priority : Option String
deriving Repr, DecidableEq

/-- Model of `models/project.py ProjectMember` row. -/
structure ProjectMemberRow where
  id : Nat
  project_id : Nat
  user_id : Nat
  role : String
deriving Repr, DecidableEq

/-- Model of `models/project.py Task` row. -/
structure TaskRow where
  id : Nat
  project_id : Nat
  name : String
  description : Option String
  status : String
  priority : String
  due_date : Nat
  created_by : Nat
deriving Repr, DecidableEq

/-- Model of `models/project.py TaskAssignment` row. -/
structure TaskAssignmentRow where
  id : Nat
  task_id : Nat
  user_id : Nat
deriving Repr, DecidableEq

/-- Model of `models/core.py ForgotPasswordRequest` row. -/
structure FPRequestRow where
  id : Nat
  user_id : Nat
  new_password : String
  status : String
deriving Repr, DecidableEq

/-- The relational store (the tables the verified slice touches). -/
structure DB where
  users : List UserRow
  roles : List RoleRow
  tokens : List UserTokenRow
  projects : List ProjectRow
  projectMembers : List ProjectMemberRow
  tasks : List TaskRow
  taskAssignments : List TaskAssignmentRow
  fpRequests : List FPRequestRow
deriving Repr, DecidableEq

/-- Python truthiness of an optional string field (`None` and `""` are falsy). -/
def strTruthy : Option String → Bool
  | none => false
  | some s => !(s == "")

/-- Mutate (via `f`) the first row satisfying `p`: session-object mutation
followed by a primary-key-scoped UPDATE at commit. -/
def updateFirst (p : α → Bool) (f : α → α) : List α → List α
  | [] => []
  | x :: xs => if p x then f x :: xs else x :: updateFirst p f xs

/-- Delete the first row satisfying `p` (`db.delete` of a queried object). -/
def removeFirst (p : α → Bool) : List α → List α
  | [] => []
  | x :: xs => if p x then xs else x :: removeFirst p xs

/-- Fresh autoincrement id: one more than the largest id in use. -/
def freshId (ids : List Nat) : Nat := ids.foldr max 0 + 1

/-- Python `str.lower()` on an ASCII role name (character-wise lowering;
structurally recursive so that concrete instances evaluate). -/
def pyLower (s : String) : String := String.mk (s.data.map Char.toLower)

/-- Model of `is_admin(user, db)` (duplicated in `projects.py`/`tasks.py`): the user's
role exists and is named "admin" case-insensitively; a missing `role_id`
or missing role row yields `false`. -/
def is_admin (user : UserRow) (db : DB) : Bool :=
  match user.role_id with
  | none => false
  | some rid =>
    match db.roles.find? (fun r => decide (r.id = rid)) with
    | none => false
    | some role => pyLower role.name == "admin"

/-- Model of `projects.py is_project_manager`: `user.id == project.manager_id`
(false when the project has no manager). -/
def is_project_manager (user : UserRow) (project : ProjectRow) : Bool :=
  project.manager_id == some user.id

/-- Model of `tasks.py is_project_member`: false if the project does not exist;
true for the manager or any `project_members` row. -/
def is_project_member (user : UserRow) (project_id : Nat) (db : DB) : Bool :=
  match db.projects.find? (fun p => decide (p.id = project_id)) with
  | none => false
  | some project =>
    if project.manager_id == some user.id then true
    else db.projectMembers.any (fun m => decide (m.project_id = project_id ∧ m.user_id = user.id))

/-- Inline check of `tasks.py update_task`:
`project and project.manager_id == user.id` for the task's owning project. -/
def task_project_manager (user : UserRow) (task : TaskRow) (db : DB) : Bool :=
  match db.projects.find? (fun p => decide (p.id = task.project_id)) with
  | none => false
  | some project => project.manager_id == some user.id

/-- Model of `utils/jwt.py create_access_token`: payload
`{sub: str(user.id), exp: now + hours, iat: now, username, email}`. -/
def create_access_token (user : UserRow) (now : Nat) (expire_hours : Nat) : TokenPayload :=
  { sub := user.id
    exp := now + expire_hours * 3600
    iat := now
    username := user.username
    email := user.email }

/-- Model of `utils/jwt.py get_user_from_token`: decode (signature/expiry) then load
the user row; `jose` rejects the token iff `exp < now`. -/
def get_user_from_token (tok : TokenPayload) (now : Nat) (db : DB) : Except ApiError UserRow :=
  if now > tok.exp then
    .error ⟨"INVALID_TOKEN", "Token is invalid or expired.", "Invalid or expired token."⟩
  else
    match db.users.find? (fun u => decide (u.id = tok.sub)) with
    | none => .error ⟨"USER_NOT_FOUND", "User not found.", "User not found."⟩
    | some u => .ok u

/-- Model of `auth.py LoginRequest` (username/email optional, password required). -/
structure LoginRequest where
  username : Option String := none
  email : Option String := none
  password : String
deriving Repr, DecidableEq

/-- The `user_data` dict returned by a successful login. -/
structure LoginData where
  id : Nat
  username : String
  email : Option String
  full_name : Option String
  role_id : Option Nat
  avatar : Option String
  access_token : TokenPayload
deriving Repr, DecidableEq

def TOKEN_EXPIRE_HOURS : Nat := 24

/-- The user query of `auth.py login`: filter by username when the username
field is truthy, otherwise by email; `first()` row. -/
def login_user_lookup (payload : LoginRequest) (db : DB) : Option UserRow :=
  if strTruthy payload.username then
    db.users.find? (fun u => decide (some u.username = payload.username))
  else
    db.users.find? (fun u => decide (u.email = payload.email))

def missing_identifier_err : ApiError :=
  ⟨"MISSING_CREDENTIALS", "Username or email is required.", "Username or email is required."⟩

def missing_password_err : ApiError :=
  ⟨"MISSING_CREDENTIALS", "Password is required.", "Password is required."⟩

def login_user_not_found_err : ApiError :=
  ⟨"USER_NOT_FOUND", "No user found with the provided credentials.",
    "Invalid username/email or password."⟩

def user_not_active_err (status : String) : ApiError :=
  ⟨"USER_NOT_ACTIVE", "User status is " ++ status ++ ".", "User account is not active."⟩

def invalid_password_err : ApiError :=
  ⟨"INVALID_PASSWORD", "Password is incorrect.", "Invalid username/email or password."⟩

/-- Model of `auth.py login`. `verify` is `bcrypt.verify`; `now` stands for the
(microseconds-apart) `datetime.now()` calls of one request. On success the
expired-token purge, the token insert and the `last_login` update commit
together. -/
def login (payload : LoginRequest) (verify : String → String → Bool) (now : Nat)
    (db : DB) : Outcome LoginData × DB :=
  if !(strTruthy payload.username || strTruthy payload.email) then
    (Outcome.err missing_identifier_err, db)
  else if payload.password == "" then
    (Outcome.err missing_password_err, db)
  else
    match login_user_lookup payload db with
    | none => (Outcome.err login_user_not_found_err, db)
    | some user =>
      if user.status != "active" then
        (Outcome.err (user_not_active_err user.status), db)
      else if !(verify payload.password user.password) then
        (Outcome.err invalid_password_err, db)
      else
        let access_token := create_access_token user now TOKEN_EXPIRE_HOURS
        let kept := db.tokens.filter
          (fun t => !(decide (t.user_id = user.id) && decide (t.expires_at < now)))
        let user_token : UserTokenRow :=
          { id := freshId (db.tokens.map (fun t => t.id))
            user_id := user.id
            token := access_token
            created_at := now
            expires_at := now + TOKEN_EXPIRE_HOURS * 3600 }
        let users' := updateFirst (fun x => decide (x.id = user.id))
          (fun x => { x with last_login := some now }) db.users
        (Outcome.ok
          { id := user.id, username := user.username, email := user.email
            full_name := user.full_name, role_id := user.role_id
            avatar := user.avatar, access_token := access_token }
          "Login successful.",
         { db with tokens := kept ++ [user_token], users := users' })

def token_not_found_err : ApiError :=
  ⟨"TOKEN_NOT_FOUND", "Token not found in database.", "Token not found or already logged out."⟩

/-- Model of `auth.py logout`: resolve the principal, then delete the token row
matching (user id, token); `TOKEN_NOT_FOUND` when no row matches. -/
def logout (tok : TokenPayload) (now : Nat) (db : DB) : Outcome Unit × DB :=
  match get_user_from_token tok now db with
  | .error e => (Outcome.err e, db)
  | .ok user =>
    let tokenMatch : UserTokenRow → Bool :=
      fun t => decide (t.user_id = user.id ∧ t.token = tok)
    match db.tokens.find? tokenMatch with
    | some _ =>
      (Outcome.ok () "Logout successful.",
       { db with tokens := removeFirst tokenMatch db.tokens })
    | none => (Outcome.err token_not_found_err, db)

/-- Model of `projects.py ProjectCreate` (pydantic defaults: `budget = 0`,
`description`/`manager_id`/`priority` default `None`). -/
structure ProjectCreate where
  name : String
  description : Option String := none
  start_date : Nat
  end_date : Nat
  manager_id : Option Nat := none
  budget : Option Int := some 0
  priority : Option String := none
deriving Repr, DecidableEq

/-- Model of `projects.py create_project`: dumps the body excluding `manager_id`,
strips timestamps, and inserts with `manager_id = user.id` and
`status = pending_approval`. -/
def create_project (user : UserRow) (project : ProjectCreate) (db : DB) :
    Outcome ProjectRow × DB :=
  let db_project : ProjectRow :=
    { id := freshId (db.projects.map (fun p => p.id))
      name := project.name
      description := project.description
      status := "pending_approval"
      start_date := project.start_date
      end_date := project.end_date
      manager_id := some user.id
      budget := project.budget
      priority := project.priority }
  (Outcome.ok db_project "Project created successfully.",
   { db with projects := db.projects ++ [db_project] })

/-- Model of `projects.py ProjectUpdate` (all fields optional; `none` = unset). -/
structure ProjectUpdate where
  name : Option String := none
  description : Option String := none
  start_date : Option Nat := none
  end_date : Option Nat := none
  manager_id : Option Nat := none
  budget : Option Int := none
  priority : Option String := none
  status : Option String := none
deriving Repr, DecidableEq

/-- The `setattr` loop of `update_project` over the remaining `update_data`
(the `status` key was popped before the loop, so it is not applied here). -/
def applyProjectUpdate (upd : ProjectUpdate) (p : ProjectRow) : ProjectRow :=
  { p with
    name := upd.name.getD p.name
    description := match upd.description with | some d => some d | none => p.description
    start_date := upd.start_date.getD p.start_date
    end_date := upd.end_date.getD p.end_date
    manager_id := match upd.manager_id with | some m => some m | none => p.manager_id
    budget := match upd.budget with | some b => some b | none => p.budget
    priority := match upd.priority with | some pr => some pr | none => p.priority }

/-- Model of `update_project`'s transition-keyword dict `allowed_admin_statuses`. -/
def allowed_admin_statuses : List (String × String) :=
  [("approve", "in_progress"), ("reject", "rejected"),
   ("cancel", "cancelled"), ("on_hold", "on_hold")]

def project_not_found_err (pid : Nat) : ApiError :=
  ⟨"PROJECT_NOT_FOUND", "No project exists with id " ++ toString pid ++ ".", "Project not found."⟩

def complete_forbidden_err : ApiError :=
  ⟨"FORBIDDEN", "Only admin or this project's manager can set completed.",
    "You do not have permission to complete this project."⟩

def keyword_forbidden_err (s : String) : ApiError :=
  ⟨"FORBIDDEN", "Only admin can set status to " ++ s ++ ".",
    "Only admin can set status to " ++ s ++ "."⟩

def invalid_project_status_err (s : String) : ApiError :=
  ⟨"INVALID_STATUS", "Invalid status update: " ++ s, "Invalid status update: " ++ s⟩

def project_update_forbidden_err : ApiError :=
  ⟨"FORBIDDEN", "Only admin or this project's manager can update this project.",
    "You do not have permission to update this project."⟩

/-- Status-transition block of `projects.py update_project` (run when the
`status` key is present): `completed` needs admin or manager and is set from
any current state; a keyword of `allowed_admin_statuses` needs admin and sets
the mapped value from any current state; anything else is `INVALID_STATUS`. -/
def project_status_step (admin manager : Bool) (new_status : String)
    (project : ProjectRow) : Except ApiError ProjectRow :=
  if new_status = "completed" then
    if !(admin || manager) then .error complete_forbidden_err
    else .ok { project with status := "completed" }
  else
    match allowed_admin_statuses.lookup new_status with
    | some target =>
      if !admin then .error (keyword_forbidden_err new_status)
      else .ok { project with status := target }
    | none => .error (invalid_project_status_err new_status)

/-- Model of `projects.py update_project` with the principal already resolved. -/
def update_project (user : UserRow) (project_id : Nat) (project_update : ProjectUpdate)
    (db : DB) : Outcome ProjectRow × DB :=
  match db.projects.find? (fun p => decide (p.id = project_id)) with
  | none => (Outcome.err (project_not_found_err project_id), db)
  | some project =>
    let admin := is_admin user db
    let manager := is_project_manager user project
    -- manager-but-not-admin: silently drop the restricted fields
    let upd := if manager && !admin then
        { project_update with manager_id := none, priority := none, budget := none }
      else project_update
    let afterStatus : Except ApiError ProjectRow :=
      match upd.status with
      | none => .ok project
      | some new_status => project_status_step admin manager new_status project
    match afterStatus with
    | .error e => (Outcome.err e, db)
    | .ok project1 =>
      if !(admin || manager) then (Outcome.err project_update_forbidden_err, db)
      else
        let project2 := applyProjectUpdate upd project1
        let projects2 := updateFirst (fun q => decide (q.id = project.id))
          (fun _ => project2) db.projects
        (Outcome.ok project2 "Project updated successfully.",
         { db with projects := projects2 })

/-- Model of `tasks.py TaskUpdate` (all fields optional; `none` = unset). -/
structure TaskUpdate where
  project_id : Option Nat := none
  name : Option String := none
  description : Option String := none
  status : Option String := none
  priority : Option String := none
  due_date : Option Nat := none
deriving Repr, DecidableEq

/-- The `setattr` loop of `update_task` over `update_data` (here `status`
stays in the dict and is applied). -/
def applyTaskUpdate (upd : TaskUpdate) (t : TaskRow) : TaskRow :=
  { t with
    project_id := upd.project_id.getD t.project_id
    name := upd.name.getD t.name
    description := match upd.description with | some d => some d | none => t.description
    status := upd.status.getD t.status
    priority := upd.priority.getD t.priority
    due_date := upd.due_date.getD t.due_date }

def task_not_found_err (tid : Nat) : ApiError :=
  ⟨"TASK_NOT_FOUND", "No task exists with id " ++ toString tid ++ ".", "Task not found."⟩

def invalid_task_status_err (s : String) : ApiError :=
  ⟨"INVALID_STATUS", "Invalid status: " ++ s, "Invalid status: " ++ s⟩

def cancel_forbidden_err : ApiError :=
  ⟨"FORBIDDEN", "Only admin or project manager can cancel a task.",
    "You don't have permission to cancel this task."⟩

def status_forbidden_err : ApiError :=
  ⟨"FORBIDDEN", "Only admin, project manager, or assigned users can update task status.",
    "You don't have permission to update this task's status."⟩

def task_update_forbidden_err : ApiError :=
  ⟨"FORBIDDEN", "Only the project's manager or admins can update tasks.",
    "You don't have permission to update this task."⟩

def move_forbidden_err : ApiError :=
  ⟨"FORBIDDEN", "You don't have permission to move this task to the target project.",
    "You don't have permission to move this task to the target project."⟩

def invalid_task_priority_err (s : String) : ApiError :=
  ⟨"INVALID_PRIORITY", "Invalid priority: " ++ s, "Invalid priority: " ++ s⟩

/-- Status block of `tasks.py update_task` (run when `status` was set):
validity, the cancelled restriction (admin / owning project's manager), then
the general status permission (admin / manager / assignee). Returns the error
it short-circuits with, if any. -/
def task_status_check (user : UserRow) (task_id : Nat) (task : TaskRow)
    (new_status : String) (db : DB) : Option ApiError :=
  if !(task_status_values.contains new_status) then
    some (invalid_task_status_err new_status)
  else
    let admin := is_admin user db
    let manager := task_project_manager user task db
    if new_status == "cancelled" && !(admin || manager) then
      some cancel_forbidden_err
    else
      let assignee := db.taskAssignments.any
        (fun a => decide (a.task_id = task_id ∧ a.user_id = user.id))
      if !(admin || manager || assignee) then some status_forbidden_err
      else none

/-- Model of `tasks.py update_task` with the principal already resolved. After the
status block, the unconditional general check (admin or owning project's
manager) runs, then the project-move check, the priority check, and the
`setattr` loop plus commit. -/
def update_task (user : UserRow) (task_id : Nat) (task_update : TaskUpdate)
    (db : DB) : Outcome TaskRow × DB :=
  match db.tasks.find? (fun t => decide (t.id = task_id)) with
  | none => (Outcome.err (task_not_found_err task_id), db)
  | some task =>
    let statusError : Option ApiError :=
      match task_update.status with
      | none => none
      | some new_status => task_status_check user task_id task new_status db
    match statusError with
    | some e => (Outcome.err e, db)
    | none =>
      let admin := is_admin user db
      let manager := task_project_manager user task db
      if !(admin || manager) then (Outcome.err task_update_forbidden_err, db)
      else
        let moveError : Option ApiError :=
          match task_update.project_id with
          | none => none
          | some pid =>
            if pid = task.project_id then none
            else
              match db.projects.find? (fun p => decide (p.id = pid)) with
              | none => some (project_not_found_err pid)
              | some _ =>
                if !(is_admin user db || is_project_member user pid db) then
                  some move_forbidden_err
                else none
        match moveError with
        | some e => (Outcome.err e, db)
        | none =>
          let priorityError : Option ApiError :=
            match task_update.priority with
            | none => none
            | some p =>
              -- Python truthiness: an empty-string priority skips validation
              if p ≠ "" ∧ !(priority_values.contains p) then
                some (invalid_task_priority_err p)
              else none
          match priorityError with
          | some e => (Outcome.err e, db)
          | none =>
            let task2 := applyTaskUpdate task_update task
            let tasks2 := updateFirst (fun t => decide (t.id = task.id))
              (fun _ => task2) db.tasks
            (Outcome.ok task2 "Task updated successfully.",
             { db with tasks := tasks2 })

/-- Model of `models/schemas.py ForgotPasswordRequestIn`. -/
structure ForgotPasswordRequestIn where
  username : Option String := none
  email : Option String := none
  full_name : String
  new_password : String
deriving Repr, DecidableEq

def fp_user_not_found_err : ApiError :=
  ⟨"USER_NOT_FOUND", "No user found with the provided username/email and full name.",
    "User not found with provided information."⟩

/-- The user query of `auth.py forgot_password`: identifier (username if
truthy, else email) AND full-name match; `first()` row. -/
def fp_user_lookup (payload : ForgotPasswordRequestIn) (db : DB) : Option UserRow :=
  if strTruthy payload.username then
    db.users.find? (fun u =>
      decide (some u.username = payload.username ∧ u.full_name = some payload.full_name))
  else
    db.users.find? (fun u =>
      decide (u.email = payload.email ∧ u.full_name = some payload.full_name))

/-- Model of `auth.py forgot_password`: hashes the candidate password immediately and
persists a `pending_approval` request; never touches the live password. -/
def forgot_password (payload : ForgotPasswordRequestIn) (hash : String → String)
    (db : DB) : Outcome (Nat × String) × DB :=
  if !(strTruthy payload.username || strTruthy payload.email) then
    (Outcome.err missing_identifier_err, db)
  else
    match fp_user_lookup payload db with
    | none => (Outcome.err fp_user_not_found_err, db)
    | some user =>
      let hashed := hash payload.new_password
      let req : FPRequestRow :=
        { id := freshId (db.fpRequests.map (fun r => r.id))
          user_id := user.id
          new_password := hashed
          status := "pending_approval" }
      (Outcome.ok (req.id, req.status)
        "Password reset request submitted and pending admin approval.",
       { db with fpRequests := db.fpRequests ++ [req] })

def request_not_found_err (rid : Nat) : ApiError :=
  ⟨"REQUEST_NOT_FOUND", "No request exists with id " ++ toString rid ++ ".",
    "Forgot password request not found."⟩

def invalid_state_approve_err (s : String) : ApiError :=
  ⟨"INVALID_STATE", "Cannot approve request with status: " ++ s,
    "Cannot approve request with status: " ++ s⟩

def invalid_state_reject_err (s : String) : ApiError :=
  ⟨"INVALID_STATE", "Cannot reject request with status: " ++ s,
    "Cannot reject request with status: " ++ s⟩

def fp_target_user_not_found_err (uid : Nat) : ApiError :=
  ⟨"USER_NOT_FOUND", "User with id " ++ toString uid ++ " not found.", "User not found."⟩

/-- Model of `admin_requests/forgot_password.py approve_forgot_password_request`,
including the router-level `admin_required` dependency (transport 403).
Only `pending_approval` requests can be approved; approval marks the request
`approved` and copies its pre-hashed password into the user row, in one
commit. If the target user row is gone the session is rolled back. -/
def approve_forgot_password_request (actor : UserRow) (request_id : Nat) (db : DB) :
    Outcome (Nat × String) × DB :=
  if !(is_admin actor db) then (Outcome.http403 "Admin privileges required", db)
  else
    match db.fpRequests.find? (fun r => decide (r.id = request_id)) with
    | none => (Outcome.err (request_not_found_err request_id), db)
    | some req =>
      if req.status ≠ "pending_approval" then
        (Outcome.err (invalid_state_approve_err req.status), db)
      else
        match db.users.find? (fun u => decide (u.id = req.user_id)) with
        | none => (Outcome.err (fp_target_user_not_found_err req.user_id), db)
        | some _ =>
          (Outcome.ok (request_id, "approved")
            ("Forgot password request " ++ toString request_id ++ " approved successfully."),
           { db with
              fpRequests := updateFirst (fun r => decide (r.id = request_id))
                (fun r => { r with status := "approved" }) db.fpRequests
              users := updateFirst (fun u => decide (u.id = req.user_id))
                (fun u => { u with password := req.new_password }) db.users })

/-- Model of `admin_requests/forgot_password.py reject_forgot_password_request`,
including the router-level `admin_required` dependency. -/
def reject_forgot_password_request (actor : UserRow) (request_id : Nat) (db : DB) :
    Outcome (Nat × String) × DB :=
  if !(is_admin actor db) then (Outcome.http403 "Admin privileges required", db)
  else
    match db.fpRequests.find? (fun r => decide (r.id = request_id)) with
    | none => (Outcome.err (request_not_found_err request_id), db)
    | some req =>
      if req.status ≠ "pending_approval" then
        (Outcome.err (invalid_state_reject_err req.status), db)
      else
        let reqs2 := updateFirst (fun r => decide (r.id = request_id))
          (fun r => { r with status := "denied" }) db.fpRequests
        (Outcome.ok (request_id, "denied")
          ("Forgot password request " ++ toString request_id ++ " rejected successfully."),
         { db with fpRequests := reqs2 })

/-! Concrete fixture data used by counterexamples and witnesses. -/

def role_admin : RoleRow := { id := 1, name := "Admin" }

def role_member : RoleRow := { id := 2, name := "member" }

def user_mgr : UserRow :=
  { id := 1, username := "mgr", password := "pm", email := none, full_name := none
    role_id := some 2, status := "active", last_login := none, avatar := none }

def user_asg : UserRow :=
  { id := 2, username := "asg", password := "pa", email := none, full_name := none
    role_id := some 2, status := "active", last_login := none, avatar := none }

def user_adm : UserRow :=
  { id := 3, username := "adm", password := "pd", email := none, full_name := none
    role_id := some 1, status := "active", last_login := none, avatar := none }

def proj_pending : ProjectRow :=
  { id := 1, name := "P", description := none, status := "pending_approval"
    start_date := 0, end_date := 10, manager_id := some 1, budget := some 0, priority := none }

def task_todo : TaskRow :=
  { id := 1, project_id := 1, name := "T", description := none, status := "todo"
    priority := "medium", due_date := 5, created_by := 1 }

def asn_one : TaskAssignmentRow := { id := 1, task_id := 1, user_id := 2 }

/-- Base store: an admin, a project manager, a task with one assignee. -/
def base_db : DB :=
  { users := [user_mgr, user_asg, user_adm]
    roles := [role_admin, role_member]
    tokens := []
    projects := [proj_pending]
    projectMembers := []
    tasks := [task_todo]
    taskAssignments := [asn_one]
    fpRequests := [] }

def proj_completed : ProjectRow := { proj_pending with status := "completed" }

def db_completed : DB := { base_db with projects := [proj_completed] }

def user_inactive : UserRow := { user_mgr with status := "inactive" }

def db_inactive : DB := { base_db with users := [user_inactive, user_asg, user_adm] }

def user_bob : UserRow :=
  { id := 5, username := "bob", password := "oldhash", email := some "bob@x"
    full_name := some "Bob B", role_id := some 2, status := "active"
    last_login := none, avatar := none }

def db_bob : DB := { base_db with users := [user_mgr, user_asg, user_adm, user_bob] }

def fp_payload_bob : ForgotPasswordRequestIn :=
  { username := some "bob", full_name := "Bob B", new_password := "newpw" }

def toy_hash (s : String) : String := "#" ++ s

def tok_adm : TokenPayload := create_access_token user_adm 100 24

def tok_row_adm : UserTokenRow :=
  { id := 1, user_id := 3, token := tok_adm, created_at := 100, expires_at := 86500 }

def db_with_token : DB := { base_db with tokens := [tok_row_adm] }

def always_true_verify : String → String → Bool := fun _ _ => true

/-! Helper lemmas about the list primitives. -/

theorem le_foldr_max {a : Nat} {l : List Nat} (h : a ∈ l) : a ≤ l.foldr max 0 := by
  induction l with
  | nil => cases h
  | cons x xs ih =>
    rcases List.mem_cons.mp h with rfl | hmem
    · exact Nat.le_max_left _ _
    · exact Nat.le_trans (ih hmem) (Nat.le_max_right _ _)

theorem freshId_not_mem (l : List Nat) : freshId l ∉ l := by
  intro hmem
  have := le_foldr_max hmem
  simp only [freshId] at this
  omega

theorem find?_updateFirst {α : Type} (p : α → Bool) (f : α → α)
    (hpf : ∀ a, p (f a) = p a) (l : List α) :
    (updateFirst p f l).find? p = (l.find? p).map f := by
  induction l with
  | nil => rfl
  | cons x xs ih =>
    by_cases hx : p x
    · simp [updateFirst, hx, List.find?_cons, hpf]
    · simp only [updateFirst, hx, if_false, Bool.false_eq_true]
      rw [List.find?_cons_of_neg _ hx, List.find?_cons_of_neg _ hx, ih]

theorem find?_removeFirst_of_countP_le_one {α : Type} (p : α → Bool) (l : List α)
    (h : l.countP p ≤ 1) : (removeFirst p l).find? p = none := by
  induction l with
  | nil => rfl
  | cons x xs ih =>
    by_cases hx : p x
    · simp only [removeFirst, hx, if_true]
      rw [List.countP_cons_of_pos _ _ hx] at h
      have hzero : xs.countP p = 0 := by omega
      rw [List.find?_eq_none]
      intro a ha
      have := (List.countP_eq_zero).mp hzero a ha
      simpa using this
    · simp only [removeFirst, hx, if_false, Bool.false_eq_true]
      rw [List.find?_cons_of_neg _ hx]
      rw [List.countP_cons_of_neg _ _ hx] at h
      exact ih h

theorem find?_by_key_of_nodup {α : Type} (g : α → Nat) {u : α} {l : List α}
    (hmem : u ∈ l) (hnodup : (l.map g).Nodup) :
    l.find? (fun x => decide (g x = g u)) = some u := by
  induction l with
  | nil => cases hmem
  | cons x xs ih =>
    rcases List.mem_cons.mp hmem with rfl | hmem'
    · rw [List.find?_cons_of_pos]
      simp
    · have hne : g x ≠ g u := by
        intro heq
        have : g u ∈ xs.map g := List.mem_map_of_mem g hmem'
        rw [List.map_cons] at hnodup
        exact (List.nodup_cons.mp hnodup).1 (heq ▸ this)
      rw [List.find?_cons_of_neg]
      · exact ih hmem' (List.nodup_cons.mp (List.map_cons g x xs ▸ hnodup)).2
      · simpa using hne

theorem find?_append_of_none {α : Type} {p : α → Bool} {l1 : List α} (l2 : List α)
    (h : l1.find? p = none) : (l1 ++ l2).find? p = l2.find? p := by
  induction l1 with
  | nil => rfl
  | cons x xs ih =>
    rw [List.find?_eq_none] at h
    have hx : ¬ p x = true := h x (List.mem_cons_self x xs)
    rw [List.cons_append, List.find?_cons_of_neg _ hx]
    exact ih (List.find?_eq_none.mpr (fun a ha => h a (List.mem_cons_of_mem x ha)))

/-! Claim theorems. -/

/-- C10: for every authenticated user and every project-creation request, the
created project's `manager_id` is the creator's id and its status is
`pending_approval`; the client-supplied `manager_id` is silently ignored
(the result is identical for every value of that field). -/
theorem create_project_ignores_client_manager_id (user : UserRow) (pc : ProjectCreate)
    (m : Option Nat) (db : DB) :
    create_project user { pc with manager_id := m } db = create_project user pc db
    ∧ (create_project user pc db).1 =
      Outcome.ok
        { id := freshId (db.projects.map (fun p => p.id))
          name := pc.name
          description := pc.description
          status := "pending_approval"
          start_date := pc.start_date
          end_date := pc.end_date
          manager_id := some user.id
          budget := pc.budget
          priority := pc.priority }
        "Project created successfully." :=
  ⟨rfl, rfl⟩

/-- C1 (code bug): in `update_task` the unconditional "only admin or project
manager" check runs even for a pure status change, so a user who is assigned
to the task but is neither admin nor the owning project's manager cannot set
any status at all — here the sole assignee sets `in_progress` on a `todo`
task and receives `FORBIDDEN`, although the status-permission block of the
same handler (and its error message) explicitly admits assignees. -/
theorem assignee_noncancel_status_update_rejected :
    is_admin user_asg base_db = false
    ∧ task_project_manager user_asg task_todo base_db = false
    ∧ base_db.taskAssignments.any
        (fun a => decide (a.task_id = 1 ∧ a.user_id = user_asg.id)) = true
    ∧ task_todo.status = "todo"
    ∧ update_task user_asg 1 { status := some "in_progress" } base_db
        = (Outcome.err task_update_forbidden_err, base_db)
    ∧ task_update_forbidden_err.code = "FORBIDDEN" := by
  refine ⟨by decide, by decide, by decide, rfl, by decide, rfl⟩

/-- C2: a user assigned to a task who is neither admin nor the owning
project's manager gets `FORBIDDEN` when setting the status to `cancelled`,
and the store (hence the task's stored status) is unchanged. -/
theorem assignee_cancel_forbidden (user : UserRow) (tid : Nat) (upd : TaskUpdate)
    (db : DB) (task : TaskRow)
    (hfind : db.tasks.find? (fun t => decide (t.id = tid)) = some task)
    (hassigned : db.taskAssignments.any
      (fun a => decide (a.task_id = tid ∧ a.user_id = user.id)) = true)
    (hadmin : is_admin user db = false)
    (hmgr : task_project_manager user task db = false)
    (hstatus : upd.status = some "cancelled") :
    update_task user tid upd db = (Outcome.err cancel_forbidden_err, db) := by
  simp only [update_task, hfind, hstatus, task_status_check, hadmin, hmgr]
  rfl

/-- C2 witness: the concrete assignee of `base_db` attempts cancellation. -/
theorem assignee_cancel_forbidden_witness :
    update_task user_asg 1 { status := some "cancelled" } base_db
      = (Outcome.err cancel_forbidden_err, base_db) :=
  assignee_cancel_forbidden user_asg 1 { status := some "cancelled" } base_db task_todo
    (by decide) (by decide) (by decide) (by decide) rfl

/-- C4: a `pending_approval` project whose manager (not an admin) requests
the transition keyword `approve` gets `FORBIDDEN`, and the store (hence the
project's stored status) is unchanged. -/
theorem manager_approve_forbidden (user : UserRow) (pid : Nat) (upd : ProjectUpdate)
    (db : DB) (project : ProjectRow)
    (hfind : db.projects.find? (fun p => decide (p.id = pid)) = some project)
    (hpending : project.status = "pending_approval")
    (hmgr : is_project_manager user project = true)
    (hadmin : is_admin user db = false)
    (hstatus : upd.status = some "approve") :
    update_project user pid upd db = (Outcome.err (keyword_forbidden_err "approve"), db) := by
  simp only [update_project, hfind, hadmin, hmgr, Bool.not_false, Bool.true_and,
    if_true, hstatus]
  rfl

/-- C4 witness: the concrete non-admin manager of `base_db`. -/
theorem manager_approve_forbidden_witness :
    update_project user_mgr 1 { status := some "approve" } base_db
      = (Outcome.err (keyword_forbidden_err "approve"), base_db) :=
  manager_approve_forbidden user_mgr 1 { status := some "approve" } base_db proj_pending
    (by decide) rfl (by decide) (by decide) rfl

/-- C5 counterexample: an inactive user exists, yet login with the submitted
password `""` fails with `MISSING_CREDENTIALS`, not `USER_NOT_ACTIVE` — the
claim's "every submitted password" fails at the empty password, which is
rejected before the status check. -/
theorem login_inactive_empty_password_counterexample :
    user_inactive ∈ db_inactive.users
    ∧ user_inactive.status ≠ "active"
    ∧ (login { username := some "mgr", password := "" } always_true_verify 100
        db_inactive).1 = Outcome.err missing_password_err
    ∧ missing_password_err.code = "MISSING_CREDENTIALS"
    ∧ missing_password_err.code ≠ "USER_NOT_ACTIVE" := by
  refine ⟨by decide, by decide, by decide, rfl, by decide⟩

/-- C5 (amended to non-empty submitted passwords): for a user whose status is
not `active`, login fails with `USER_NOT_ACTIVE` for every non-empty
password and every bcrypt-verification oracle — the password is never
verified — and the store is unchanged (no token issued). -/
theorem login_not_active_rejected (payload : LoginRequest)
    (verify : String → String → Bool) (now : Nat) (db : DB) (u : UserRow)
    (hid : (strTruthy payload.username || strTruthy payload.email) = true)
    (hpw : payload.password ≠ "")
    (hfound : login_user_lookup payload db = some u)
    (hstatus : u.status ≠ "active") :
    login payload verify now db = (Outcome.err (user_not_active_err u.status), db) := by
  have hpw' : (payload.password == "") = false := by
    simpa using hpw
  have hst : (u.status != "active") = true := by
    simpa using hstatus
  simp only [login, hid, hpw', hfound, hst, Bool.not_true, Bool.false_eq_true, if_false, if_true]

/-- C5 witness: the inactive user of `db_inactive`, password "wrong". -/
theorem login_not_active_rejected_witness :
    login { username := some "mgr", password := "wrong" } always_true_verify 100 db_inactive
      = (Outcome.err (user_not_active_err "inactive"), db_inactive) :=
  login_not_active_rejected { username := some "mgr", password := "wrong" }
    always_true_verify 100 db_inactive user_inactive
    (by decide) (by decide) (by decide) (by decide)

/-- C3 counterexample: an admin applies the keyword `approve` to a project
whose status is `completed` (not `pending_approval`), and the update succeeds
and moves the project to `in_progress` — a status change outside the claimed
set of legal transitions. -/
theorem admin_approve_from_completed_counterexample :
    is_admin user_adm db_completed = true
    ∧ proj_completed.status = "completed"
    ∧ (update_project user_adm 1 { status := some "approve" } db_completed).1
        = Outcome.ok { proj_completed with status := "in_progress" }
            "Project updated successfully." := by
  refine ⟨by decide, rfl, by decide⟩

/-- A successful `project_status_step` only rewrites the status field. -/
theorem project_status_step_fields (admin manager : Bool) (s : String)
    (p q : ProjectRow) (h : project_status_step admin manager s p = .ok q) :
    q.id = p.id ∧ q.name = p.name ∧ q.description = p.description
    ∧ q.start_date = p.start_date ∧ q.end_date = p.end_date
    ∧ q.manager_id = p.manager_id ∧ q.budget = p.budget ∧ q.priority = p.priority := by
  unfold project_status_step at h
  split at h
  · split at h
    · cases h
    · cases h
      exact ⟨rfl, rfl, rfl, rfl, rfl, rfl, rfl, rfl⟩
  · split at h
    · split at h
      · cases h
      · cases h
        exact ⟨rfl, rfl, rfl, rfl, rfl, rfl, rfl, rfl⟩
    · cases h

/-- A successful `project_status_step` is either the `completed` branch
(admin or manager) or an admin-only keyword of `allowed_admin_statuses`. -/
theorem project_status_step_cases (admin manager : Bool) (s : String)
    (p q : ProjectRow) (h : project_status_step admin manager s p = .ok q) :
    (s = "completed" ∧ (admin || manager) = true ∧ q.status = "completed")
    ∨ (∃ t, allowed_admin_statuses.lookup s = some t ∧ admin = true ∧ q.status = t) := by
  unfold project_status_step at h
  split at h
  · rename_i hs
    split at h
    · cases h
    · rename_i hperm
      cases h
      exact Or.inl ⟨hs, by revert hperm; cases (admin || manager) <;> simp, rfl⟩
  · split at h
    · rename_i t hlook
      split at h
      · cases h
      · rename_i hadm
        cases h
        exact Or.inr ⟨t, hlook, by revert hadm; cases admin <;> simp, rfl⟩
    · cases h

/-- An unrecognized status value makes `project_status_step` fail with
`INVALID_STATUS`. -/
theorem project_status_step_invalid (admin manager : Bool) (s : String)
    (p : ProjectRow) (hnc : s ≠ "completed")
    (hnk : allowed_admin_statuses.lookup s = none) :
    project_status_step admin manager s p = .error (invalid_project_status_err s) := by
  unfold project_status_step
  rw [if_neg hnc, hnk]

/-- C8: when the actor is the project's manager but not an admin, the
restricted fields `{manager_id, priority, budget}` are silently dropped —
the handler's result is identical with and without them — and on success
the remaining requested fields are applied while the stored `manager_id`,
`priority` and `budget` are unchanged. -/
theorem manager_update_drops_restricted_fields (user : UserRow) (pid : Nat)
    (upd : ProjectUpdate) (db : DB) (project : ProjectRow)
    (hfind : db.projects.find? (fun p => decide (p.id = pid)) = some project)
    (hmgr : is_project_manager user project = true)
    (hadmin : is_admin user db = false) :
    update_project user pid upd db
      = update_project user pid
          { upd with manager_id := none, priority := none, budget := none } db
    ∧ ∀ p2 msg db2, update_project user pid upd db = (Outcome.ok p2 msg, db2) →
        p2.manager_id = project.manager_id
        ∧ p2.priority = project.priority
        ∧ p2.budget = project.budget
        ∧ p2.name = upd.name.getD project.name
        ∧ p2.description = (match upd.description with
            | some d => some d | none => project.description)
        ∧ p2.start_date = upd.start_date.getD project.start_date
        ∧ p2.end_date = upd.end_date.getD project.end_date
        ∧ db2.projects = updateFirst (fun q => decide (q.id = project.id))
            (fun _ => p2) db.projects := by
  constructor
  · simp only [update_project, hfind, hmgr, hadmin, Bool.not_false, Bool.true_and, if_true]
  · intro p2 msg db2 h
    simp only [update_project, hfind, hmgr, hadmin, Bool.not_false, Bool.true_and,
      if_true, Bool.true_or, Bool.or_true, Bool.not_true, Bool.false_eq_true,
      if_false] at h
    rcases hs : upd.status with _ | s
    · rw [hs] at h
      simp only at h
      cases h
      exact ⟨rfl, rfl, rfl, rfl, rfl, rfl, rfl, rfl⟩
    · rw [hs] at h
      simp only at h
      rcases hstep : project_status_step false true s project with e | p1
      · rw [hstep] at h; cases h
      · rw [hstep] at h
        simp only at h
        cases h
        obtain ⟨-, hname, hdesc, hsd, hed, hmid, hbud, hpri⟩ :=
          project_status_step_fields _ _ _ _ _ hstep
        refine ⟨?_, ?_, ?_, ?_, ?_, ?_, ?_, rfl⟩ <;>
          simp [applyProjectUpdate, hname, hdesc, hsd, hed, hmid, hbud, hpri]

/-- C3 (amended: the keyword transitions are not gated on the current status
being `pending_approval`; they fire from any state): for every project and
actor, a successful status update either leaves the status unchanged (no
status in the request), sets `completed` (admin or this project's manager,
from any state), or sets the admin-only keyword's target
(`approve ↦ in_progress`, `reject ↦ rejected`, `cancel ↦ cancelled`,
`on_hold ↦ on_hold`, from any state); an unrecognized status value always
fails with `INVALID_STATUS`. -/
theorem update_project_legal_transitions (user : UserRow) (pid : Nat)
    (upd : ProjectUpdate) (db : DB) (project : ProjectRow)
    (hfind : db.projects.find? (fun p => decide (p.id = pid)) = some project) :
    (∀ s, upd.status = some s → s ≠ "completed" →
      allowed_admin_statuses.lookup s = none →
      update_project user pid upd db = (Outcome.err (invalid_project_status_err s), db))
    ∧ ∀ p2 msg db2, update_project user pid upd db = (Outcome.ok p2 msg, db2) →
        (upd.status = none ∧ p2.status = project.status)
        ∨ (upd.status = some "completed" ∧ p2.status = "completed"
            ∧ (is_admin user db = true ∨ is_project_manager user project = true))
        ∨ (∃ s t, upd.status = some s ∧ allowed_admin_statuses.lookup s = some t
            ∧ p2.status = t ∧ is_admin user db = true) := by
  have happly : ∀ (u : ProjectUpdate) (p : ProjectRow),
      (applyProjectUpdate u p).status = p.status := fun u p => rfl
  constructor
  · intro s hs hnc hnk
    have hinv : ∀ a m : Bool,
        project_status_step a m s project = .error (invalid_project_status_err s) :=
      fun a m => project_status_step_invalid a m s project hnc hnk
    by_cases hcond :
        (is_project_manager user project && !(is_admin user db)) = true
    · simp only [update_project, hfind, if_pos hcond, hs, hinv]
    · simp only [update_project, hfind, if_neg hcond, hs, hinv]
  · intro p2 msg db2 h
    simp only [update_project, hfind] at h
    by_cases hcond :
        (is_project_manager user project && !(is_admin user db)) = true
    all_goals first
      | rw [if_pos hcond] at h
      | rw [if_neg hcond] at h
    all_goals rcases hs : upd.status with _ | s
    all_goals rw [hs] at h
    all_goals simp only at h
    -- no-status cases
    case pos.none =>
      by_cases hperm : (!(is_admin user db || is_project_manager user project)) = true
      · rw [if_pos hperm] at h; cases h
      · rw [if_neg hperm] at h
        cases h
        exact Or.inl ⟨rfl, happly _ _⟩
    case neg.none =>
      by_cases hperm : (!(is_admin user db || is_project_manager user project)) = true
      · rw [if_pos hperm] at h; cases h
      · rw [if_neg hperm] at h
        cases h
        exact Or.inl ⟨rfl, happly _ _⟩
    all_goals
      rcases hstep : project_status_step (is_admin user db)
          (is_project_manager user project) s project with e | p1
    all_goals rw [hstep] at h
    all_goals simp only at h
    case pos.some.error => cases h
    case neg.some.error => cases h
    all_goals
      by_cases hperm : (!(is_admin user db || is_project_manager user project)) = true
    all_goals first
      | (rw [if_pos hperm] at h; cases h)
      | rw [if_neg hperm] at h
    all_goals cases h
    all_goals
      rcases project_status_step_cases _ _ _ _ _ hstep with ⟨hsc, hpm, hqs⟩ | ⟨t, hlk, hadm, hqs⟩
    · exact Or.inr (Or.inl ⟨by rw [hsc], by rw [happly, hqs],
        by rcases Bool.or_eq_true_iff.mp hpm with h1 | h1 <;> [exact Or.inl h1; exact Or.inr h1]⟩)
    · exact Or.inr (Or.inr ⟨s, t, rfl, hlk, by rw [happly, hqs], hadm⟩)
    · exact Or.inr (Or.inl ⟨by rw [hsc], by rw [happly, hqs],
        by rcases Bool.or_eq_true_iff.mp hpm with h1 | h1 <;> [exact Or.inl h1; exact Or.inr h1]⟩)
    · exact Or.inr (Or.inr ⟨s, t, rfl, hlk, by rw [happly, hqs], hadm⟩)

/-- C3 witness: instantiating the transition theorem at `base_db` with the
unrecognized status value "bogus" yields `INVALID_STATUS`. -/
theorem update_project_legal_transitions_witness :
    update_project user_adm 1 { status := some "bogus" } base_db
      = (Outcome.err (invalid_project_status_err "bogus"), base_db) := by
  have h := update_project_legal_transitions user_adm 1 { status := some "bogus" }
    base_db proj_pending (by decide)
  exact h.1 "bogus" rfl (by decide) (by decide)

/-- C8 witness: the concrete manager's update; the restricted fields are
dropped without error and the remaining field `name` is applied. -/
theorem manager_update_drops_restricted_fields_witness :
    update_project user_mgr 1
        { name := some "N", manager_id := some 9, budget := some 99, priority := some "high" }
        base_db
      = update_project user_mgr 1
        { name := some "N", manager_id := none, budget := none, priority := none } base_db
    ∧ (update_project user_mgr 1
        { name := some "N", manager_id := some 9, budget := some 99, priority := some "high" }
        base_db).1
      = Outcome.ok { proj_pending with name := "N" } "Project updated successfully." := by
  have h := manager_update_drops_restricted_fields user_mgr 1
    { name := some "N", manager_id := some 9, budget := some 99, priority := some "high" }
    base_db proj_pending (by decide) (by decide) (by decide)
  exact ⟨h.1, by decide⟩

/-- C6: a successful login commits exactly this token-table change: the rows
of the logging-in user whose `expires_at` has passed are deleted (no other
row of that user, and no row of any other user, is touched) and one fresh
token row for that user is appended; moreover the issued tokens of two
logins of the same user at different instants are distinct (their `iat`
claims differ). -/
theorem login_token_frame (payload : LoginRequest) (verify : String → String → Bool)
    (now : Nat) (db : DB) (u : UserRow)
    (hid : (strTruthy payload.username || strTruthy payload.email) = true)
    (hpw : payload.password ≠ "")
    (hfound : login_user_lookup payload db = some u)
    (hactive : u.status = "active")
    (hverify : verify payload.password u.password = true) :
    (login payload verify now db).2.tokens
      = db.tokens.filter
          (fun t => !(decide (t.user_id = u.id) && decide (t.expires_at < now)))
        ++ [{ id := freshId (db.tokens.map (fun t => t.id))
              user_id := u.id
              token := create_access_token u now TOKEN_EXPIRE_HOURS
              created_at := now
              expires_at := now + TOKEN_EXPIRE_HOURS * 3600 }]
    ∧ (login payload verify now db).1
      = Outcome.ok
          { id := u.id, username := u.username, email := u.email
            full_name := u.full_name, role_id := u.role_id, avatar := u.avatar
            access_token := create_access_token u now TOKEN_EXPIRE_HOURS }
          "Login successful."
    ∧ ∀ now2, now ≠ now2 →
        create_access_token u now TOKEN_EXPIRE_HOURS
          ≠ create_access_token u now2 TOKEN_EXPIRE_HOURS := by
  have hpw' : (payload.password == "") = false := by simpa using hpw
  have hst : (u.status != "active") = false := by simp [hactive]
  have hv : (!(verify payload.password u.password)) = false := by simp [hverify]
  refine ⟨?_, ?_, ?_⟩
  · simp only [login, hid, hpw', hfound, hst, hv, Bool.not_true, Bool.false_eq_true,
      if_false]
  · simp only [login, hid, hpw', hfound, hst, hv, Bool.not_true, Bool.false_eq_true,
      if_false]
  · intro now2 hne heq
    have : now = now2 := congrArg TokenPayload.iat heq
    exact hne this

/-- C6 witness: the concrete admin logs in at time 100 into a store holding
one of their expired tokens and one live one plus another user's expired
token; only the expired own token is purged and a fresh row is appended. -/
theorem login_token_frame_witness :
    (login { username := some "adm", password := "pd" }
        always_true_verify 100 db_with_token).2.tokens
      = db_with_token.tokens.filter
          (fun t => !(decide (t.user_id = user_adm.id) && decide (t.expires_at < 100)))
        ++ [{ id := freshId (db_with_token.tokens.map (fun t => t.id))
              user_id := user_adm.id
              token := create_access_token user_adm 100 TOKEN_EXPIRE_HOURS
              created_at := 100
              expires_at := 100 + TOKEN_EXPIRE_HOURS * 3600 }]
    ∧ create_access_token user_adm 100 TOKEN_EXPIRE_HOURS
        ≠ create_access_token user_adm 101 TOKEN_EXPIRE_HOURS := by
  have h := login_token_frame { username := some "adm", password := "pd" }
    always_true_verify 100 db_with_token user_adm
    (by decide) (by decide) (by decide) rfl rfl
  exact ⟨h.1, h.2.2 101 (by decide)⟩

/-- C9: with a valid token (unexpired, user row present) and a matching token
row in the store (unique, by the token column's uniqueness constraint),
logout deletes exactly that row and succeeds; a second logout with the same
still-valid token fails with `TOKEN_NOT_FOUND` and leaves the token table
unchanged. -/
theorem logout_then_second_logout_not_found (tok : TokenPayload) (now1 now2 : Nat)
    (db : DB) (u : UserRow)
    (hval1 : ¬ now1 > tok.exp) (hval2 : ¬ now2 > tok.exp)
    (huser : db.users.find? (fun x => decide (x.id = tok.sub)) = some u)
    (hrow : ∃ row, db.tokens.find?
      (fun t => decide (t.user_id = u.id ∧ t.token = tok)) = some row)
    (huniq : db.tokens.countP
      (fun t => decide (t.user_id = u.id ∧ t.token = tok)) ≤ 1) :
    logout tok now1 db
      = (Outcome.ok () "Logout successful.",
         { db with tokens := removeFirst (fun t => decide (t.user_id = u.id ∧ t.token = tok)) db.tokens })
    ∧ logout tok now2
        { db with tokens := removeFirst (fun t => decide (t.user_id = u.id ∧ t.token = tok)) db.tokens }
      = (Outcome.err token_not_found_err,
         { db with tokens := removeFirst (fun t => decide (t.user_id = u.id ∧ t.token = tok)) db.tokens }) := by
  obtain ⟨row, hrow⟩ := hrow
  have hg1 : get_user_from_token tok now1 db = .ok u := by
    simp only [get_user_from_token, if_neg hval1, huser]
  have hg2 : get_user_from_token tok now2
      { db with tokens := removeFirst (fun t => decide (t.user_id = u.id ∧ t.token = tok)) db.tokens }
      = .ok u := by
    simp only [get_user_from_token, if_neg hval2]
    rw [huser]
  have hnone := find?_removeFirst_of_countP_le_one
    (fun t => decide (t.user_id = u.id ∧ t.token = tok)) db.tokens huniq
  constructor
  · simp only [logout, hg1, hrow]
  · simp only [logout, hg2, hnone]

/-- C9 witness: the admin's token row is removed by the first logout; the
second logout with the same token reports `TOKEN_NOT_FOUND`. -/
theorem logout_then_second_logout_not_found_witness :
    logout tok_adm 200 db_with_token
      = (Outcome.ok () "Logout successful.",
         { db_with_token with tokens := removeFirst (fun t => decide (t.user_id = user_adm.id ∧ t.token = tok_adm)) db_with_token.tokens })
    ∧ logout tok_adm 200
        { db_with_token with tokens := removeFirst (fun t => decide (t.user_id = user_adm.id ∧ t.token = tok_adm)) db_with_token.tokens }
      = (Outcome.err token_not_found_err,
         { db_with_token with tokens := removeFirst (fun t => decide (t.user_id = user_adm.id ∧ t.token = tok_adm)) db_with_token.tokens }) :=
  logout_then_second_logout_not_found tok_adm 200 200 db_with_token user_adm
    (by decide) (by decide) (by decide) ⟨tok_row_adm, by decide⟩ (by decide)


/-- Model of `is_admin` reads only the roles table. -/
theorem is_admin_congr (a : UserRow) (d1 d2 : DB) (h : d1.roles = d2.roles) :
    is_admin a d1 = is_admin a d2 := by
  unfold is_admin
  cases a.role_id
  · rfl
  · rw [h]

/-- C7: submitting a forgot-password request stores the hash computed at
submission time; an admin approval then sets the target user's password to
exactly that stored hash and marks the request `approved`; any further
approve or reject attempt on the same request fails with `INVALID_STATE`
and leaves the store unchanged. -/
theorem fp_approval_round_trip (payload : ForgotPasswordRequestIn)
    (hash : String → String) (db : DB) (u : UserRow) (admin : UserRow)
    (rid : Nat) (db1 : DB)
    (hid : (strTruthy payload.username || strTruthy payload.email) = true)
    (hfound : fp_user_lookup payload db = some u)
    (hnodup : (db.users.map (fun x => x.id)).Nodup)
    (hadmin : is_admin admin db = true)
    (hsub : forgot_password payload hash db
      = (Outcome.ok (rid, "pending_approval")
          "Password reset request submitted and pending admin approval.", db1)) :
    ∃ db2,
      approve_forgot_password_request admin rid db1
        = (Outcome.ok (rid, "approved")
            ("Forgot password request " ++ toString rid ++ " approved successfully."), db2)
      ∧ db2.users.find? (fun x => decide (x.id = u.id))
          = some { u with password := hash payload.new_password }
      ∧ approve_forgot_password_request admin rid db2
          = (Outcome.err (invalid_state_approve_err "approved"), db2)
      ∧ reject_forgot_password_request admin rid db2
          = (Outcome.err (invalid_state_reject_err "approved"), db2) := by
  simp only [forgot_password, hid, hfound, Bool.not_true, Bool.false_eq_true, if_false,
    Prod.mk.injEq, Outcome.ok.injEq, and_true, true_and] at hsub
  obtain ⟨hrid, hdb1⟩ := hsub
  have hreqs1 : db1.fpRequests
      = db.fpRequests ++ [(⟨rid, u.id, hash payload.new_password, "pending_approval"⟩ : FPRequestRow)] := by
    rw [← hdb1, ← hrid]
  have husers1 : db1.users = db.users := by rw [← hdb1]
  have hroles1 : db1.roles = db.roles := by rw [← hdb1]
  have hmem : u ∈ db.users := by
    unfold fp_user_lookup at hfound
    split at hfound
    · exact List.mem_of_find?_eq_some hfound
    · exact List.mem_of_find?_eq_some hfound
  have hfindu : db.users.find? (fun x => decide (x.id = u.id)) = some u :=
    find?_by_key_of_nodup (fun y => y.id) hmem hnodup
  have hnoneold : db.fpRequests.find? (fun r => decide (r.id = rid)) = none := by
    rw [List.find?_eq_none]
    intro r hr
    simp only [decide_eq_true_eq]
    intro heq
    exact freshId_not_mem (db.fpRequests.map (fun x => x.id))
      ((heq.trans hrid.symm) ▸ List.mem_map_of_mem (fun x => x.id) hr)
  have hfindreq : db1.fpRequests.find? (fun r => decide (r.id = rid))
      = some (⟨rid, u.id, hash payload.new_password, "pending_approval"⟩ : FPRequestRow) := by
    rw [hreqs1, find?_append_of_none _ hnoneold, List.find?_cons_of_pos]
    simp
  have hadmin1 : is_admin admin db1 = true := by
    rw [is_admin_congr admin db1 db hroles1]
    exact hadmin
  refine ⟨{ db1 with
      fpRequests := updateFirst (fun r => decide (r.id = rid)) (fun r => { r with status := "approved" }) db1.fpRequests
      users := updateFirst (fun x => decide (x.id = u.id)) (fun x => { x with password := hash payload.new_password }) db1.users },
    ?_, ?_, ?_, ?_⟩
  · simp only [approve_forgot_password_request, hadmin1, Bool.not_true, Bool.false_eq_true,
      if_false, hfindreq, husers1, hfindu]
    simp [husers1, hfindu]
  · have hu2 : (updateFirst (fun x => decide (x.id = u.id)) (fun x => { x with password := hash payload.new_password }) db1.users).find? (fun x => decide (x.id = u.id))
        = (db1.users.find? (fun x => decide (x.id = u.id))).map (fun x => { x with password := hash payload.new_password }) :=
      find?_updateFirst (fun x => decide (x.id = u.id)) (fun x => { x with password := hash payload.new_password }) (fun a => rfl) db1.users
    rw [show ({ db1 with
        fpRequests := updateFirst (fun r => decide (r.id = rid)) (fun r => { r with status := "approved" }) db1.fpRequests
        users := updateFirst (fun x => decide (x.id = u.id)) (fun x => { x with password := hash payload.new_password }) db1.users } : DB).users
      = updateFirst (fun x => decide (x.id = u.id)) (fun x => { x with password := hash payload.new_password }) db1.users from rfl]
    rw [hu2, husers1, hfindu]
    rfl
  · have hfindreq2 : (updateFirst (fun r => decide (r.id = rid)) (fun r => { r with status := "approved" }) db1.fpRequests).find? (fun r => decide (r.id = rid))
        = some (⟨rid, u.id, hash payload.new_password, "approved"⟩ : FPRequestRow) := by
      rw [find?_updateFirst (fun r => decide (r.id = rid)) (fun r => { r with status := "approved" }) (fun a => rfl) db1.fpRequests, hfindreq]
      rfl
    have hadmin2 : is_admin admin { db1 with
        fpRequests := updateFirst (fun r => decide (r.id = rid)) (fun r => { r with status := "approved" }) db1.fpRequests
        users := updateFirst (fun x => decide (x.id = u.id)) (fun x => { x with password := hash payload.new_password }) db1.users } = true :=
      (is_admin_congr admin _ db1 rfl).trans hadmin1
    simp only [approve_forgot_password_request, hadmin2, Bool.not_true, Bool.false_eq_true,
      if_false, hfindreq2]
    simp
  · have hfindreq2 : (updateFirst (fun r => decide (r.id = rid)) (fun r => { r with status := "approved" }) db1.fpRequests).find? (fun r => decide (r.id = rid))
        = some (⟨rid, u.id, hash payload.new_password, "approved"⟩ : FPRequestRow) := by
      rw [find?_updateFirst (fun r => decide (r.id = rid)) (fun r => { r with status := "approved" }) (fun a => rfl) db1.fpRequests, hfindreq]
      rfl
    have hadmin2 : is_admin admin { db1 with
        fpRequests := updateFirst (fun r => decide (r.id = rid)) (fun r => { r with status := "approved" }) db1.fpRequests
        users := updateFirst (fun x => decide (x.id = u.id)) (fun x => { x with password := hash payload.new_password }) db1.users } = true :=
      (is_admin_congr admin _ db1 rfl).trans hadmin1
    simp only [reject_forgot_password_request, hadmin2, Bool.not_true, Bool.false_eq_true,
      if_false, hfindreq2]
    simp

/-- C7 witness: bob's request in `db_bob` is submitted and approved by the
concrete admin; a second approval and a rejection both report
`INVALID_STATE`. -/
theorem fp_approval_round_trip_witness :
    ∃ db2,
      approve_forgot_password_request user_adm 1
          { db_bob with fpRequests := [(⟨1, 5, toy_hash "newpw", "pending_approval"⟩ : FPRequestRow)] }
        = (Outcome.ok (1, "approved")
            ("Forgot password request " ++ toString 1 ++ " approved successfully."), db2)
      ∧ db2.users.find? (fun x => decide (x.id = user_bob.id))
          = some { user_bob with password := toy_hash "newpw" }
      ∧ approve_forgot_password_request user_adm 1 db2
          = (Outcome.err (invalid_state_approve_err "approved"), db2)
      ∧ reject_forgot_password_request user_adm 1 db2
          = (Outcome.err (invalid_state_reject_err "approved"), db2) :=
  fp_approval_round_trip fp_payload_bob toy_hash db_bob user_bob user_adm 1
    { db_bob with fpRequests := [(⟨1, 5, toy_hash "newpw", "pending_approval"⟩ : FPRequestRow)] }
    (by decide) (by decide) (by decide) (by decide) (by decide)
